import Mathlib

/-!
Verification of the spelling-warning parser and reporter of
`devel-common/src/sphinx_exts/docs_build/spelling_checks.py` and of the
document operator of
`providers/microsoft/azure/src/airflow/providers/microsoft/azure/operators/cosmos.py`.

The Python code is embedded shallowly:

* `pathlib.Path` values are modelled by their posix string (modern `pathlib`
  compares paths by the normalised string, and `as_posix` is the identity on
  that model);
* the character classes of `re` (`\w`, `\s`) and `int()` are modelled on their
  ASCII fragment — every concrete input exercised below is ASCII;
* the `rich` console is modelled by the list of printed strings, and the
  filesystem-touching collaborators (`Path.resolve`, `os.path.isfile`,
  `prepare_code_snippet`) by explicit function parameters.
-/

namespace SpellingChecks

/-- ASCII fragment of the `re` word class `\w`: `[A-Za-z0-9_]`. -/
def isWordChar (c : Char) : Bool :=
  c.isAlphanum || c = '_'

/-- ASCII fragment of the `re` whitespace class `\s`: space, tab, newline,
carriage return, vertical tab, form feed and the separators 0x1c-0x1f. -/
def isPySpace (c : Char) : Bool :=
  c = ' ' || c = '\t' || c = '\n' || c = '\r' || c = '\x0b' || c = '\x0c' ||
  c = '\x1c' || c = '\x1d' || c = '\x1e' || c = '\x1f'

/-- The line boundaries of Python's `str.splitlines`: `\n`, `\r`, `\v`, `\f`,
`\x1c`, `\x1d`, `\x1e`, `\x85`, U+2028, U+2029 (`\r\n` is one boundary,
handled in `splitlinesAux` itself). -/
def isLineBoundary (c : Char) : Bool :=
  c = '\n' || c = '\r' || c = '\x0b' || c = '\x0c' ||
  c = '\x1c' || c = '\x1d' || c = '\x1e' || c = '\x85' ||
  c = '\u2028' || c = '\u2029'

/-- Worker for `splitlines`: `acc` holds the reversed characters of the line
being read; a boundary always closes a line, a final segment only counts as a
line when it is non-empty (so a trailing newline adds no empty line). -/
def splitlinesAux : List Char → List Char → List String
  | acc, [] => if acc.isEmpty then [] else [String.mk acc.reverse]
  | acc, '\r' :: '\n' :: cs => String.mk acc.reverse :: splitlinesAux [] cs
  | acc, c :: cs =>
    if isLineBoundary c then String.mk acc.reverse :: splitlinesAux [] cs
    else splitlinesAux (c :: acc) cs

/-- Python `str.splitlines`. -/
def splitlines (s : String) : List String :=
  splitlinesAux [] s.data

/-- `\s?`: the greedy optional whitespace consumes one whitespace character
exactly when one is next (whatever follows always matches, so the regex
engine never revisits this choice). -/
def skipOptSpace : List Char → List Char
  | [] => []
  | c :: cs => if isPySpace c then cs else c :: cs

/-- The tail of the warning pattern after the first group and its colon:
`(\w*):\s\((\w*)\)\s?(\w*)\s?(.*)`.  On a line the backtracking of `re` is
deterministic here: each `\w*` must be the maximal word-character run
(shrinking it would put a word character where `:` or `)` is required),
`\s?` is `skipOptSpace`, and the final greedy `(.*)` takes the remainder.
Returns the captures of groups 2-5. -/
def matchTail (cs : List Char) : Option (String × String × String × String) :=
  let s2 := cs.span isWordChar
  match s2.2 with
  | ':' :: c :: r2 =>
    if isPySpace c then
      match r2 with
      | '(' :: r3 =>
        let s3 := r3.span isWordChar
        match s3.2 with
        | ')' :: r5 =>
          let r6 := skipOptSpace r5
          let s4 := r6.span isWordChar
          let r8 := skipOptSpace s4.2
          some (String.mk s2.1, String.mk s3.1, String.mk s4.1, String.mk r8)
        | _ => none
      | _ => none
    else none
  | _ => none

/-- `re.search(r"(.*):(\w*):\s\((\w*)\)\s?(\w*)\s?(.*)", line)` for a line
without `\n` (the parser only feeds it lines of `splitlines`, which contain
no line boundary at all).  The leading greedy `(.*)` turns any match starting
later into a match starting at 0, so the search is the greedy match at the
start of the line: group 1 is the longest prefix standing before a `:` from
which `matchTail` succeeds. -/
def matchGroups (cs : List Char) : Option (String × String × String × String × String) :=
  (List.range cs.length).reverse.findSome? fun i =>
    match cs.drop i with
    | ':' :: rest =>
      (matchTail rest).map fun g =>
        (String.mk (cs.take i), g.1, g.2.1, g.2.2.1, g.2.2.2)
    | _ => none

/-- The `SpellingError` named tuple.  `file_path` is the posix string of the
`pathlib.Path`. -/
structure SpellingError where
  file_path : Option String
  line_no : Option Nat
  spelling : Option String
  suggestion : Option String
  context_line : Option String
  message : String
deriving DecidableEq

/-- `docs_dir / relpath` on `pathlib` paths for a normalised, non-root base:
an empty right operand is dropped, an absolute one replaces the base, a
relative one is appended after a slash (further `pathlib` normalisations,
duplicate slashes and dot segments, are outside the inputs exercised here). -/
def pathJoin (base rel : String) : String :=
  if rel = "" then base
  else
    match rel.data with
    | '/' :: _ => rel
    | _ => base ++ "/" ++ rel

/-- The maximal groups of characters between the underscores of a string
(`digitGroups "1_0".data = [[1], [0]]`, with empty groups at doubled, leading
or trailing underscores). -/
def digitGroups : List Char → List (List Char)
  | [] => [[]]
  | '_' :: cs => [] :: digitGroups cs
  | c :: cs =>
    match digitGroups cs with
    | g :: gs => (c :: g) :: gs
    | [] => [[c]]

/-- Python `int(s)` on the ASCII word-character strings that the second
capture group (`\w*`) can produce: defined exactly when the string is groups
of decimal digits separated by single underscores (`int("1_0")` is 10 while
`int("_1")`, `int("1_")`, `int("1__0")` and any string with a letter raise
`ValueError`). -/
def pyIntOfWordChars (s : String) : Option Nat :=
  if (digitGroups s.data).all (fun g => !g.isEmpty && g.all (fun c => c.isDigit)) then
    some ((s.data.filter (fun c => c.isDigit)).foldl (fun a c => a * 10 + (c.toNat - 48)) 0)
  else none

/-- `int(warning_parts[1]) if warning_parts[1] not in ("None", "") else None`,
with the surrounding `try` made explicit: `.error` is the raised
`ValueError`. -/
def lineNoField (s : String) : Except Unit (Option Nat) :=
  if s = "None" ∨ s = "" then .ok none
  else
    match pyIntOfWordChars s with
    | some n => .ok (some n)
    | none => .error ()

/-- The message-only record built both by the `except` branch and by the
no-match branch of `parse_spelling_warnings`. -/
def rawRecord (line : String) : SpellingError :=
  ⟨none, none, none, none, none, line⟩

/-- The per-line body of the loop of `parse_spelling_warnings` for one
non-empty line.  A successful match always has exactly five groups, so the
source's `len(warning_parts) == 5` test holds whenever `match` is truthy;
construction of the full record can only raise in `int(...)`, and any raise
degrades the line to the message-only record. -/
def processLine (docs_dir line : String) : SpellingError :=
  match matchGroups line.data with
  | some (g1, g2, g3, g4, g5) =>
    match lineNoField g2 with
    | .ok ln =>
      { file_path := some (pathJoin docs_dir g1)
        line_no := ln
        spelling := some g3
        suggestion := if g4 = "" then none else some g4
        context_line := some g5
        message := line }
    | .error _ => rawRecord line
  | none => rawRecord line

/-- The loop of `parse_spelling_warnings` over the split lines: an empty line
is skipped (`continue`), every other line appends exactly one record. -/
def parseLines (docs_dir : String) : List String → List SpellingError
  | [] => []
  | l :: ls =>
    if l = "" then parseLines docs_dir ls
    else processLine docs_dir l :: parseLines docs_dir ls

/-- `parse_spelling_warnings(warning_text, docs_dir)`. -/
def parse_spelling_warnings (warning_text : String) (docs_dir : String) : List SpellingError :=
  parseLines docs_dir (splitlines warning_text)

/-- `SpellingError.__eq__`: compares the five-tuple omitting `suggestion`. -/
def spellingEq (a b : SpellingError) : Bool :=
  decide ((a.file_path, a.line_no, a.spelling, a.context_line, a.message)
        = (b.file_path, b.line_no, b.spelling, b.context_line, b.message))

/-- The defaulted comparison key built inside `SpellingError.__lt__`:
`(file_path or Path("/"), line_no or 0, context_line or "", spelling or "",
message or "")`.  On these values Python's `x or d` is `Option.getD` — the
falsy cases are exactly `None`, `0` and `""`, and `0 or 0 = 0`, `"" or "" =
""` — and `message or ""` is `message` itself since `"" or ""` is `""`. -/
def sortKey (e : SpellingError) : String × Nat × String × String × String :=
  (e.file_path.getD "/", e.line_no.getD 0, e.context_line.getD "",
   e.spelling.getD "", e.message)

/-- Python string `<`: lexicographic comparison by code point, computed on
the character lists. -/
def strLtB (a b : String) : Bool := decide (a.data < b.data)

/-- Python tuple `<` on the two comparison keys: move to the next component
exactly when the current components are equal. -/
def keyLt :
    String × Nat × String × String × String →
    String × Nat × String × String × String → Bool
  | (a1, a2, a3, a4, a5), (b1, b2, b3, b4, b5) =>
    if a1 = b1 then
      if a2 = b2 then
        if a3 = b3 then
          if a4 = b4 then strLtB a5 b5
          else strLtB a4 b4
        else strLtB a3 b3
      else decide (a2 < b2)
    else strLtB a1 b1

/-- `SpellingError.__lt__`. -/
def spellingLt (a b : SpellingError) : Bool :=
  keyLt (sortKey a) (sortKey b)

/-- The collaborators of the reporter that read the world outside the module:
`Path.resolve`, `os.path.isfile` and `prepare_code_snippet`.  One value of
this structure is one fixed state of that outside world. -/
structure ReporterEnv where
  resolve : String → String
  isfile : String → Bool
  snippet : String → Nat → String

/-- Python truthiness of an optional string: `None` and `""` are falsy. -/
def optStrTruthy : Option String → Bool
  | some s => s != ""
  | none => false

/-- Python truthiness of an optional int: `None` and `0` are falsy. -/
def optNatTruthy : Option Nat → Bool
  | some n => n != 0
  | none => false

/-- `_display_error`: the sequence of strings printed for one record (each
`console.print(x)` contributes `x`; `console.print()` contributes `""`).
The guard before the snippet re-tests `error.file_path`, which is already
truthy in this branch (a `Path` is never falsy), and `as_posix()` is the
identity on the posix-string model of paths. -/
def displayError (env : ReporterEnv) (e : SpellingError) : List String :=
  e.message :: "" ::
    match e.file_path with
    | none => []
    | some p =>
      ("File path: " ++ env.resolve p) ::
      ((if optStrTruthy e.spelling then
          ["[red]Incorrect Spelling: '" ++ e.spelling.getD "" ++ "'"] else []) ++
       (if optStrTruthy e.suggestion then
          ["Suggested Spelling: '" ++ e.suggestion.getD "" ++ "'"] else []) ++
       (if optStrTruthy e.context_line then
          ["Line with Error: '" ++ e.context_line.getD "" ++ "'"] else []) ++
       (if !p.endsWith "<unknown>" && optNatTruthy e.line_no && env.isfile p then
          ["Line Number: " ++ toString (e.line_no.getD 0),
           env.snippet p (e.line_no.getD 0)]
        else []))

/-- `c * n` on strings: the banner pieces `"#" * 30`, `"=" * 30`, ... -/
def rep (c : Char) (n : Nat) : String :=
  String.mk (List.replicate n c)

/-- `f"Error {warning_no:3}"`: the index right-aligned to width 3. -/
def pad3 (n : Nat) : String :=
  let s := toString n
  if s.length < 3 then rep ' ' (3 - s.length) ++ s else s

/-- The section header: `console.print("=" * 30, " [bright_blue]…[/] ", "=" * 30)`
with the category name, or the fixed `General` label for the empty key
(`rich` joins print arguments with single spaces). -/
def categoryHeader (pkg : String) : String :=
  rep '=' 30 ++ "  [bright_blue]" ++ (if pkg = "" then "General" else pkg)
    ++ "[/]  " ++ rep '=' 30

/-- The body of `for warning_no, error in enumerate(sorted(errors), 1)`:
a numbered separator line, then the lines of `_display_error`. -/
def errorBlocks (env : ReporterEnv) : Nat → List SpellingError → List String
  | _, [] => []
  | n, e :: es =>
    (rep '-' 30 ++ " Error " ++ pad3 n ++ " " ++ rep '-' 30)
      :: (displayError env e ++ errorBlocks env (n + 1) es)

/-- The relation `sorted(errors)` sorts by, as a `Prop`: `a` may stand before
`b` exactly when not `b < a`.  Python's `sorted` is the stable ascending sort
by `__lt__`; all stable sorts by one comparator agree, so the stable
`insertionSort` below computes it. -/
def errLe (a b : SpellingError) : Prop := spellingLt b a = false

instance : DecidableRel errLe :=
  fun a b => inferInstanceAs (Decidable (spellingLt b a = false))

/-- Python list `<` on record lists (reached by tuple comparison only when two
category keys are equal): the first position where elements are not `__eq__`
decides by `__lt__`, and a strict prefix is smaller. -/
def listLt : List SpellingError → List SpellingError → Bool
  | _, [] => false
  | [], _ :: _ => true
  | a :: as, b :: bs => if spellingEq a b then listLt as bs else spellingLt a b

/-- Python tuple `<` on the `(package_name, errors)` items of the dict. -/
def itemLt (a b : String × List SpellingError) : Bool :=
  if a.1 = b.1 then listLt a.2 b.2 else strLtB a.1 b.1

/-- The relation `sorted(spelling_errors.items())` sorts by. -/
def itemLe (a b : String × List SpellingError) : Prop := itemLt b a = false

instance : DecidableRel itemLe :=
  fun a b => inferInstanceAs (Decidable (itemLt b a = false))

/-- The fixed guidance footer: the `msg` literal of
`display_spelling_error_summary`, verbatim. -/
def footerMsg : String :=
  "[green]\nIf there are spelling errors related to class or function name, make sure\nthose names are quoted with backticks '`' - this should exclude it from spellcheck process.\nIf there are spelling errors in the summary above, and the spelling is\ncorrect, add the spelling to docs/spelling_wordlist.txt or use the\nspelling directive.\nCheck https://sphinxcontrib-spelling.readthedocs.io/en/latest/customize.html#private-dictionaries\nfor more details.\n\nIf there are no spelling errors in the summary above, there might be an\nissue unrelated to spelling. Please review the traceback.\n    "

/-- `display_spelling_error_summary`: the full sequence of printed strings.
The dict of grouped records is passed as its item list; `sorted` over the
items and over each category's records is modelled by the stable
`insertionSort` with the matching not-greater relation.  The two bare
`console.print` statements at the end of the source (no call parentheses)
print nothing. -/
def display_spelling_error_summary (env : ReporterEnv)
    (items : List (String × List SpellingError)) : List String :=
  ["", "[red]" ++ rep '#' 30 ++ " Start spelling errors summary " ++ rep '#' 30 ++ "[/]", ""]
    ++ ((List.insertionSort itemLe items).map
          (fun pr => categoryHeader pr.1
            :: errorBlocks env 1 (List.insertionSort errLe pr.2))).flatten
    ++ [rep '=' 100, "", footerMsg, "",
        "[red]" ++ rep '#' 30 ++ " End docs build errors summary " ++ rep '#' 30 ++ "[/]"]

end SpellingChecks

namespace Cosmos

/-- The mutating calls `AzureCosmosInsertDocumentOperator.execute` can make on
the `AzureCosmosDBHook`, with their arguments.  `Doc` is the type of the
document dict. -/
inductive HookCall (Doc : Type) where
  | create_database (name : String)
  | create_collection (name : String) (database_name : String)
  | upsert_document (document : Doc) (database_name : String) (collection_name : String)

/-- The hook's two existence checks; one value is one state of the external
store as the two checks observe it. -/
structure Hook (Doc : Type) where
  does_database_exist : String → Bool
  does_collection_exist : String → String → Bool

/-- The operator fields that `execute` reads. -/
structure InsertDocumentOperator (Doc : Type) where
  database_name : String
  collection_name : String
  document : Doc

/-- `AzureCosmosInsertDocumentOperator.execute`: create the database when the
check says it is missing, create the collection when its check says it is
missing, then unconditionally upsert the document.  The result is the
sequence of mutating hook calls, in order. -/
def execute {Doc : Type} (hook : Hook Doc) (op : InsertDocumentOperator Doc) :
    List (HookCall Doc) :=
  (if hook.does_database_exist op.database_name then []
   else [.create_database op.database_name])
    ++ (if hook.does_collection_exist op.collection_name op.database_name then []
        else [.create_collection op.collection_name op.database_name])
    ++ [.upsert_document op.document op.database_name op.collection_name]

end Cosmos

namespace SpellingChecks

theorem parseLines_eq_filter_map (d : String) :
    ∀ ls : List String,
      parseLines d ls = (ls.filter (fun l => decide (l ≠ ""))).map (processLine d)
  | [] => rfl
  | l :: ls => by
    by_cases h : l = ""
    · simp [parseLines, h, List.filter_cons, parseLines_eq_filter_map d ls]
    · simp [parseLines, h, List.filter_cons, parseLines_eq_filter_map d ls]

theorem parseLines_length (d : String) (ls : List String) :
    (parseLines d ls).length = ls.length - ls.countP (fun l => decide (l = "")) := by
  rw [parseLines_eq_filter_map d ls, List.length_map, ← List.countP_eq_length_filter,
    List.length_eq_countP_add_countP (fun l => decide (l = "")) ls]
  simp only [ne_eq, decide_not, decide_eq_true_eq]
  omega

theorem mem_parseLines {d : String} :
    ∀ {ls : List String} {e : SpellingError},
      e ∈ parseLines d ls → ∃ l, e = processLine d l
  | [], _, h => absurd h (List.not_mem_nil _)
  | l :: ls, e, h => by
    by_cases hl : l = ""
    · exact mem_parseLines (by simpa [parseLines, hl] using h)
    · have h' : e = processLine d l ∨ e ∈ parseLines d ls := by
        simpa [parseLines, hl] using h
      rcases h' with he | he
      · exact ⟨l, he⟩
      · exact mem_parseLines he

theorem processLine_fields (d l : String) :
    ((processLine d l).file_path.isSome = true ∧ (processLine d l).spelling.isSome = true ∧
      (processLine d l).context_line.isSome = true)
    ∨ processLine d l = rawRecord l := by
  cases hm : matchGroups l.data with
  | none => exact Or.inr (by simp [processLine, hm])
  | some g =>
    obtain ⟨g1, g2, g3, g4, g5⟩ := g
    cases hf : lineNoField g2 with
    | error u => exact Or.inr (by simp [processLine, hm, hf])
    | ok ln => exact Or.inl (by simp [processLine, hm, hf])

/-- C1 (corrected) counterexample: on the line `a:None: (tok) sug ctx` the
parser produces a record whose `file_path`, `spelling`, `suggestion` and
`context_line` are present while `line_no` is absent, so the optional fields
are not jointly present or jointly absent as the claim states. -/
theorem optional_fields_grouping_cex :
    ((parse_spelling_warnings "a:None: (tok) sug ctx" "/docs").all
      (fun e =>
        (e.file_path.isSome && e.line_no.isSome && e.spelling.isSome &&
          e.suggestion.isSome && e.context_line.isSome) ||
        (e.file_path.isNone && e.line_no.isNone && e.spelling.isNone &&
          e.suggestion.isNone && e.context_line.isNone))) = false := by
  decide

/-- C1 (amended): every record produced by the parser either has `file_path`,
`spelling` (the token) and `context_line` all present, or is the message-only
record with all five optional fields absent; in the first case `line_no` and
`suggestion` may individually be absent. -/
theorem optional_fields_grouping (text docs_dir : String) (e : SpellingError)
    (he : e ∈ parse_spelling_warnings text docs_dir) :
    (e.file_path.isSome = true ∧ e.spelling.isSome = true ∧ e.context_line.isSome = true)
    ∨ (e.file_path = none ∧ e.line_no = none ∧ e.spelling = none ∧
       e.suggestion = none ∧ e.context_line = none) := by
  obtain ⟨l, rfl⟩ := mem_parseLines he
  rcases processLine_fields docs_dir l with h | h
  · exact Or.inl h
  · rw [h]
    exact Or.inr ⟨rfl, rfl, rfl, rfl, rfl⟩

theorem optional_fields_grouping_witness :
    ((rawRecord "Some bogus line").file_path.isSome = true
        ∧ (rawRecord "Some bogus line").spelling.isSome = true
        ∧ (rawRecord "Some bogus line").context_line.isSome = true)
    ∨ ((rawRecord "Some bogus line").file_path = none
        ∧ (rawRecord "Some bogus line").line_no = none
        ∧ (rawRecord "Some bogus line").spelling = none
        ∧ (rawRecord "Some bogus line").suggestion = none
        ∧ (rawRecord "Some bogus line").context_line = none) :=
  optional_fields_grouping "Some bogus line" "/docs" (rawRecord "Some bogus line")
    (by decide)

/-- C2: when a line matches the five-group pattern and the captured
line-number token is the literal `"None"` or empty, the record has `line_no`
absent while the other matched fields are populated as usual. -/
theorem none_line_no_token (docs_dir l g1 g2 g3 g4 g5 : String)
    (hm : matchGroups l.data = some (g1, g2, g3, g4, g5))
    (hg : g2 = "None" ∨ g2 = "") :
    processLine docs_dir l =
      { file_path := some (pathJoin docs_dir g1), line_no := none,
        spelling := some g3,
        suggestion := if g4 = "" then none else some g4,
        context_line := some g5, message := l } := by
  have hf : lineNoField g2 = .ok none := by
    simp [lineNoField, hg]
  simp [processLine, hm, hf]

theorem none_line_no_token_witness :
    processLine "/docs" "a:None: (tok) sug ctx" =
      { file_path := some (pathJoin "/docs" "a"), line_no := none,
        spelling := some "tok", suggestion := some "sug",
        context_line := some "ctx", message := "a:None: (tok) sug ctx" } :=
  none_line_no_token "/docs" "a:None: (tok) sug ctx" "a" "None" "tok" "sug" "ctx"
    (by decide) (Or.inl rfl)

/-- C3: the parser is total.  The first conjunct shows every line is handled
independently of the ones after it (a malformed line never aborts the rest);
the second shows a non-matching line degrades to the message-only record; the
third shows a matching line whose record construction raises (the only raise
is `int(...)` on the line-number token) also degrades to the message-only
record. -/
theorem parser_never_fails (docs_dir l : String) (ls : List String) :
    parseLines docs_dir (l :: ls)
      = (if l = "" then [] else [processLine docs_dir l]) ++ parseLines docs_dir ls
    ∧ (matchGroups l.data = none → processLine docs_dir l = rawRecord l)
    ∧ (∀ g1 g2 g3 g4 g5, matchGroups l.data = some (g1, g2, g3, g4, g5) →
        lineNoField g2 = .error () → processLine docs_dir l = rawRecord l) := by
  refine ⟨?_, ?_, ?_⟩
  · by_cases h : l = "" <;> simp [parseLines, h]
  · intro h
    simp [processLine, h]
  · intro g1 g2 g3 g4 g5 hm hf
    simp [processLine, hm, hf]

theorem parser_never_fails_witness :
    processLine "/docs" "Some bogus line" = rawRecord "Some bogus line"
    ∧ processLine "/docs" "x:12abc: (t) c" = rawRecord "x:12abc: (t) c" :=
  ⟨(parser_never_fails "/docs" "Some bogus line" []).2.1 (by decide),
   (parser_never_fails "/docs" "x:12abc: (t) c" []).2.2 "x" "12abc" "t" "c" ""
     (by decide) (by rfl)⟩

/-- C5: record equality compares exactly `(file_path, line_no, spelling,
context_line, message)` and ignores `suggestion`: records agreeing on those
five fields are equal whatever their suggestions, and records differing in
any of them are unequal. -/
theorem eq_ignores_suggestion (a b : SpellingError) :
    spellingEq a b = true ↔
      (a.file_path = b.file_path ∧ a.line_no = b.line_no ∧ a.spelling = b.spelling ∧
       a.context_line = b.context_line ∧ a.message = b.message) := by
  simp [spellingEq, Prod.ext_iff]

/-- C6: parsing a text of N lines of which K are blank yields exactly N-K
records — one per non-empty line, in the original relative order (the output
is the in-order image of the non-empty lines under the per-line parse). -/
theorem parse_counts_nonblank_lines (text docs_dir : String) :
    parse_spelling_warnings text docs_dir
      = ((splitlines text).filter (fun l => decide (l ≠ ""))).map (processLine docs_dir)
    ∧ (parse_spelling_warnings text docs_dir).length
      = (splitlines text).length - (splitlines text).countP (fun l => decide (l = "")) :=
  ⟨parseLines_eq_filter_map docs_dir (splitlines text),
   parseLines_length docs_dir (splitlines text)⟩

theorem strLtB_iff (a b : String) : strLtB a b = true ↔ a < b := by
  simp [strLtB]

/-- The comparison key seen as a value of the nested lexicographic order on
`String`, `Nat` and `String` triples — Python tuple comparison is exactly
this lexicographic order. -/
def lexKey (x : String × Nat × String × String × String) :
    Lex (String × Lex (Nat × Lex (String × Lex (String × String)))) :=
  toLex (x.1, toLex (x.2.1, toLex (x.2.2.1, toLex (x.2.2.2.1, x.2.2.2.2))))

theorem keyLt_iff_lexKey_lt (x y : String × Nat × String × String × String) :
    keyLt x y = true ↔ lexKey x < lexKey y := by
  obtain ⟨x1, x2, x3, x4, x5⟩ := x
  obtain ⟨y1, y2, y3, y4, y5⟩ := y
  simp only [keyLt, lexKey, Prod.Lex.lt_iff]
  by_cases h1 : x1 = y1 <;> by_cases h2 : x2 = y2 <;> by_cases h3 : x3 = y3 <;>
      by_cases h4 : x4 = y4 <;>
    simp [h1, h2, h3, h4, strLtB_iff]

theorem lexKey_injective {x y : String × Nat × String × String × String}
    (h : lexKey x = lexKey y) : x = y := by
  obtain ⟨x1, x2, x3, x4, x5⟩ := x
  obtain ⟨y1, y2, y3, y4, y5⟩ := y
  simpa [lexKey, Prod.ext_iff] using h

/-- C4: `SpellingError.__lt__` is the strict total order keyed on the tuple
`(file_path, line_no, context_line, spelling, message)` with the defaults
root path, zero and empty string for the missing fields: it is irreflexive
and transitive, any two records are strictly comparable in one direction or
have equal comparison keys, and a record whose present `file_path` is
strictly smaller under path ordering sorts strictly first whatever the other
fields are. -/
theorem lt_total_order_on_key (a b c : SpellingError) :
    spellingLt a a = false
    ∧ (spellingLt a b = true → spellingLt b c = true → spellingLt a c = true)
    ∧ (spellingLt a b = true ∨ spellingLt b a = true ∨ sortKey a = sortKey b)
    ∧ (∀ pa pb, a.file_path = some pa → b.file_path = some pb → pa < pb →
        spellingLt a b = true) := by
  refine ⟨?_, ?_, ?_, ?_⟩
  · exact Bool.eq_false_iff.mpr fun h =>
      absurd ((keyLt_iff_lexKey_lt _ _).mp h) (lt_irrefl _)
  · intro h1 h2
    exact (keyLt_iff_lexKey_lt _ _).mpr
      (lt_trans ((keyLt_iff_lexKey_lt _ _).mp h1) ((keyLt_iff_lexKey_lt _ _).mp h2))
  · rcases lt_trichotomy (lexKey (sortKey a)) (lexKey (sortKey b)) with h | h | h
    · exact Or.inl ((keyLt_iff_lexKey_lt _ _).mpr h)
    · exact Or.inr (Or.inr (lexKey_injective h))
    · exact Or.inr (Or.inl ((keyLt_iff_lexKey_lt _ _).mpr h))
  · intro pa pb hpa hpb hlt
    refine (keyLt_iff_lexKey_lt _ _).mpr ?_
    simp only [lexKey, Prod.Lex.lt_iff]
    exact Or.inl (by simpa [sortKey, hpa, hpb] using hlt)

theorem lt_total_order_on_key_witness :
    spellingLt (rawRecord "a") (rawRecord "c") = true
    ∧ spellingLt ⟨some "/pa", none, none, none, none, "m"⟩
        ⟨some "/pb", none, none, none, none, "m"⟩ = true :=
  ⟨(lt_total_order_on_key (rawRecord "a") (rawRecord "b") (rawRecord "c")).2.1
      (by decide) (by decide),
   (lt_total_order_on_key ⟨some "/pa", none, none, none, none, "m"⟩
      ⟨some "/pb", none, none, none, none, "m"⟩ (rawRecord "z")).2.2.2 "/pa" "/pb"
      rfl rfl ((strLtB_iff "/pa" "/pb").mp (by decide))⟩

/-- C7 (corrected) counterexample: on the spec's literal two-line input the
first record's `context_line` is the capture `"teh" recieve the`, not
`recieve the` as the claim states (the fourth group `\w*` matches the empty
string in front of the quote character, so the fifth group starts at the
quoted token). -/
theorem literal_example_parse_cex :
    ((parse_spelling_warnings
        "docs/foo.rst:10: (SpellingError) \"teh\" recieve the\nSome bogus line"
        "/base").map (fun e => e.context_line))
      = [some "\"teh\" recieve the", none]
    ∧ (some "\"teh\" recieve the" : Option String) ≠ some "recieve the" := by
  refine ⟨by decide, by decide⟩

/-- C7 (amended): parsing the literal two-line input with base directory
`docs_dir` yields exactly two records: the first with `file_path` the base
joined with `docs/foo.rst`, `line_no` 10, token `SpellingError`, absent
suggestion, `context_line` the capture `"teh" recieve the`, and the full
first line as its message; the second message-only. -/
theorem literal_example_parse (docs_dir : String) :
    parse_spelling_warnings
        "docs/foo.rst:10: (SpellingError) \"teh\" recieve the\nSome bogus line" docs_dir
      = [{ file_path := some (pathJoin docs_dir "docs/foo.rst"), line_no := some 10,
           spelling := some "SpellingError", suggestion := none,
           context_line := some "\"teh\" recieve the",
           message := "docs/foo.rst:10: (SpellingError) \"teh\" recieve the" },
         rawRecord "Some bogus line"] := by
  have hsplit :
      splitlines "docs/foo.rst:10: (SpellingError) \"teh\" recieve the\nSome bogus line"
        = ["docs/foo.rst:10: (SpellingError) \"teh\" recieve the", "Some bogus line"] := by
    decide
  have hm1 : matchGroups "docs/foo.rst:10: (SpellingError) \"teh\" recieve the".data
      = some ("docs/foo.rst", "10", "SpellingError", "", "\"teh\" recieve the") := by
    decide
  have hm2 : matchGroups "Some bogus line".data = none := by decide
  have hf : lineNoField "10" = .ok (some 10) := by rfl
  rw [parse_spelling_warnings, hsplit]
  simp [parseLines, processLine, hm1, hm2, hf]

/-- C10: the reporter prints the line number and source excerpt only when
`line_no` is truthy: a record with `file_path` present, `line_no` present but
equal to 0, a path not ending in the unknown-location marker and an existing
file renders exactly as the same record with `line_no` absent — presence
alone is not sufficient, since the code tests truthiness. -/
theorem zero_line_no_suppresses_excerpt (env : ReporterEnv) (e : SpellingError)
    (p : String) (hp : e.file_path = some p) (h0 : e.line_no = some 0)
    (hu : p.endsWith "<unknown>" = false) (hf : env.isfile p = true) :
    displayError env e = displayError env { e with line_no := none } := by
  simp [displayError, hp, h0, optNatTruthy, hu, hf]

theorem zero_line_no_suppresses_excerpt_witness :
    displayError ⟨fun s => s, fun _ => true, fun _ _ => "snippet"⟩
        ⟨some "doc.rst", some 0, some "teh", none, some "ctx", "msg"⟩
      = displayError ⟨fun s => s, fun _ => true, fun _ _ => "snippet"⟩
        ⟨some "doc.rst", none, some "teh", none, some "ctx", "msg"⟩ :=
  zero_line_no_suppresses_excerpt _ _ "doc.rst" rfl rfl (by decide) rfl

theorem itemLt_of_key_lt {a b : String × List SpellingError} (h : a.1 < b.1) :
    itemLt a b = true := by
  have hne : a.1 ≠ b.1 := ne_of_lt h
  simp [itemLt, hne, strLtB_iff, h]

theorem key_lt_of_not_itemLe {a b : String × List SpellingError}
    (h : ¬ itemLe a b) (hne : a.1 ≠ b.1) : b.1 < a.1 := by
  have h' : itemLt b a = true := by
    rcases hb : itemLt b a with _ | _
    · exact absurd hb h
    · rfl
  rw [itemLt, if_neg (fun q : b.1 = a.1 => hne q.symm)] at h'
  exact (strLtB_iff b.1 a.1).mp h'

theorem key_lt_of_itemLe {a b : String × List SpellingError}
    (h : itemLe a b) (hne : a.1 ≠ b.1) : a.1 < b.1 := by
  rcases lt_trichotomy a.1 b.1 with hlt | heq | hgt
  · exact hlt
  · exact absurd heq hne
  · have h' : itemLt b a = false := h
    have ht := itemLt_of_key_lt hgt
    rw [h'] at ht
    exact Bool.noConfusion ht

theorem pairwise_orderedInsert_key (x : String × List SpellingError) :
    ∀ s : List (String × List SpellingError),
      (∀ y ∈ s, y.1 ≠ x.1) →
      s.Pairwise (fun a b => a.1 < b.1) →
      (List.orderedInsert itemLe x s).Pairwise (fun a b => a.1 < b.1)
  | [], _, _ => by simp
  | b :: s, hne, hp => by
    rw [List.orderedInsert]
    rcases List.pairwise_cons.mp hp with ⟨hb, hs⟩
    by_cases hle : itemLe x b
    · rw [if_pos hle]
      have hxb : x.1 < b.1 :=
        key_lt_of_itemLe hle (fun q => hne b (List.mem_cons_self b s) q.symm)
      refine List.pairwise_cons.mpr ⟨?_, hp⟩
      intro y hy
      rcases List.mem_cons.mp hy with rfl | hy'
      · exact hxb
      · exact lt_trans hxb (hb y hy')
    · rw [if_neg hle]
      have hbx : b.1 < x.1 :=
        key_lt_of_not_itemLe hle (fun q => hne b (List.mem_cons_self b s) q.symm)
      refine List.pairwise_cons.mpr ⟨?_, ?_⟩
      · intro y hy
        rcases (List.mem_orderedInsert itemLe).mp hy with rfl | hy'
        · exact hbx
        · exact hb y hy'
      · exact pairwise_orderedInsert_key x s
          (fun y hy => hne y (List.mem_cons_of_mem b hy)) hs

theorem pairwise_insertionSort_key :
    ∀ l : List (String × List SpellingError),
      (l.map Prod.fst).Nodup →
      (List.insertionSort itemLe l).Pairwise (fun a b => a.1 < b.1)
  | [], _ => by simp
  | x :: l, h => by
    rw [List.insertionSort]
    rw [List.map_cons] at h
    have h' := List.nodup_cons.mp h
    refine pairwise_orderedInsert_key x _ ?_ (pairwise_insertionSort_key l h'.2)
    intro y hy hyx
    exact h'.1 (List.mem_map.mpr ⟨y, (List.mem_insertionSort itemLe).mp hy, hyx⟩)

/-- C9: the reporter is deterministic.  Its output is a pure function of the
grouped mapping and of the fixed external environment: two presentations of
the same grouped mapping (permutations of the same key-to-records items, the
keys distinct as dict keys are) render to identical output — the category
order is forced by the sort on keys, the records of each category are sorted
by the record order, and nothing else (no timestamp, no hidden state)
influences the output. -/
theorem summary_deterministic (env : ReporterEnv)
    (l1 l2 : List (String × List SpellingError))
    (hperm : l1.Perm l2) (hkeys : (l1.map Prod.fst).Nodup) :
    display_spelling_error_summary env l1 = display_spelling_error_summary env l2 := by
  have hkeys2 : (l2.map Prod.fst).Nodup := ((hperm.map Prod.fst).nodup_iff).mp hkeys
  have hsp : (List.insertionSort itemLe l1).Perm (List.insertionSort itemLe l2) :=
    ((List.perm_insertionSort itemLe l1).trans hperm).trans
      (List.perm_insertionSort itemLe l2).symm
  haveI : IsAntisymm (String × List SpellingError) (fun a b => a.1 < b.1) :=
    ⟨fun a b h1 h2 => absurd h1 (lt_asymm h2)⟩
  have heq : List.insertionSort itemLe l1 = List.insertionSort itemLe l2 :=
    List.eq_of_perm_of_sorted hsp (pairwise_insertionSort_key l1 hkeys)
      (pairwise_insertionSort_key l2 hkeys2)
  simp only [display_spelling_error_summary, heq]

theorem summary_deterministic_witness :
    display_spelling_error_summary ⟨fun s => s, fun _ => true, fun _ _ => "snippet"⟩
        [("b", []), ("a", [])]
      = display_spelling_error_summary ⟨fun s => s, fun _ => true, fun _ _ => "snippet"⟩
        [("a", []), ("b", [])] :=
  summary_deterministic ⟨fun s => s, fun _ => true, fun _ _ => "snippet"⟩
    [("b", []), ("a", [])] [("a", []), ("b", [])]
    (List.Perm.swap ("a", []) ("b", []) []) (by decide)

end SpellingChecks

namespace Cosmos

/-- C8: when both the database-existence check and the collection-existence
check return true, `execute` performs no create call and exactly one
`upsert_document` call, with the supplied document, database name and
collection name. -/
theorem execute_upsert_only {Doc : Type} (hook : Hook Doc)
    (op : InsertDocumentOperator Doc)
    (hdb : hook.does_database_exist op.database_name = true)
    (hcol : hook.does_collection_exist op.collection_name op.database_name = true) :
    execute hook op
      = [HookCall.upsert_document op.document op.database_name op.collection_name] := by
  simp [execute, hdb, hcol]

theorem execute_upsert_only_witness :
    execute (⟨fun _ => true, fun _ _ => true⟩ : Hook Nat) ⟨"db", "col", 7⟩
      = [HookCall.upsert_document 7 "db" "col"] :=
  execute_upsert_only (⟨fun _ => true, fun _ _ => true⟩ : Hook Nat) ⟨"db", "col", 7⟩ rfl rfl

end Cosmos
